import Mathlib

/-
Verification model of the sales-analytics database module (src/database.py).

It embeds the synthetic transaction generator `insert_sample_data`, the
customer-total SQL update, and the `run_custom_query` facade as pure Lean
functions.  Randomness from the seeded `np.random` stream is modelled by an
explicit pseudorandom generator state threaded through every draw, so that
generation is a pure function of the seed, the date range and the (static)
catalog.  Python floats are modelled by exact rationals; `round(x, 2)` is
modelled by round-half-even at two decimals.
-/

namespace SalesDB

/-- State of the pseudorandom generator modelling the seeded `np.random`
stream (`np.random.seed(42)` at line 209 of src/database.py). -/
structure RandState where
  s : ℕ
deriving DecidableEq

/-- One step of a linear congruential generator: the concrete PRNG standing
in for NumPy's Mersenne twister.  All that the verification uses is that it
is a deterministic function of the state. -/
def lcg (s : ℕ) : ℕ := (1103515245 * s + 12345) % 2 ^ 31

/-- Draw a raw number and advance the state. -/
def nextNat (g : RandState) : ℕ × RandState :=
  let v := lcg g.s
  (v, ⟨v⟩)

/-- Draw a number in `[0, n)` (for `n > 0`). -/
def randBelow (g : RandState) (n : ℕ) : ℕ × RandState :=
  let r := nextNat g
  (r.1 % n, r.2)

/-- Model of `np.random.randint(lo, hi)`: a draw in `[lo, hi)`. -/
def randint (g : RandState) (lo hi : ℕ) : ℕ × RandState :=
  let r := randBelow g (hi - lo)
  (lo + r.1, r.2)

/-- Model of `np.random.uniform(a, b)`: a rational in `[a, b]`. -/
def uniformQ (g : RandState) (a b : ℚ) : ℚ × RandState :=
  let r := randBelow g 1000000
  (a + (r.1 : ℚ) / 1000000 * (b - a), r.2)

/-- Model of `np.random.choice(xs)`: a uniformly chosen element of `xs`. -/
def choice {α : Type} [Inhabited α] (g : RandState) (xs : List α) : α × RandState :=
  let r := randBelow g xs.length
  (xs.getD r.1 default, r.2)

/-- Walk a cumulative-weight table: pick the first entry whose cumulative
weight exceeds the uniform draw `u`. -/
def cumPick {α : Type} (u : ℚ) (dflt : α) : List (α × ℚ) → ℚ → α
  | [], _ => dflt
  | (x, p) :: rest, acc => if u < acc + p then x else cumPick u dflt rest (acc + p)

/-- Model of `np.random.choice(xs, p=ps)`: a weighted categorical draw,
implemented as a single uniform draw mapped through cumulative weights. -/
def weightedChoice {α : Type} [Inhabited α] (g : RandState) (xs : List α) (ps : List ℚ) :
    α × RandState :=
  let r := randBelow g 1000000
  (cumPick ((r.1 : ℚ) / 1000000) default (xs.zip ps) 0, r.2)

/-- Decimal digit as a character. -/
def digitChar (n : ℕ) : Char :=
  if n = 0 then '0' else if n = 1 then '1' else if n = 2 then '2' else if n = 3 then '3'
  else if n = 4 then '4' else if n = 5 then '5' else if n = 6 then '6' else if n = 7 then '7'
  else if n = 8 then '8' else '9'

/-- Numeric value of a decimal digit character. -/
def digitVal (c : Char) : ℕ :=
  if c = '0' then 0 else if c = '1' then 1 else if c = '2' then 2 else if c = '3' then 3
  else if c = '4' then 4 else if c = '5' then 5 else if c = '6' then 6 else if c = '7' then 7
  else if c = '8' then 8 else 9

/-- Decimal digit string of a natural number (model of Python `str(n)`). -/
def natDigits (n : ℕ) : List Char :=
  if _h : n < 10 then [digitChar n]
  else natDigits (n / 10) ++ [digitChar (n % 10)]
termination_by n
decreasing_by exact Nat.div_lt_self (by omega) (by omega)

/-- Decimal rendering of a natural number as a string. -/
def natStr (n : ℕ) : String := ⟨natDigits n⟩

/-- Zero-pad the decimal digits of `n` on the left to width `w`
(model of Python `str(n).zfill(w)` and of `%02d`-style formatting). -/
def padDigits (w n : ℕ) : List Char :=
  List.replicate (w - (natDigits n).length) '0' ++ natDigits n

/-- Zero-padded decimal string. -/
def padStr (w n : ℕ) : String := ⟨padDigits w n⟩

/-- Calendar date, modelling Python `datetime` values. -/
structure Date where
  year : ℕ
  month : ℕ
  day : ℕ
deriving DecidableEq, Inhabited

/-- Gregorian leap-year test. -/
def isLeap (y : ℕ) : Bool := (y % 4 == 0 && y % 100 != 0) || y % 400 == 0

/-- Number of days in a month. -/
def daysInMonth (y m : ℕ) : ℕ :=
  if m = 2 then (if isLeap y then 29 else 28)
  else if m = 4 ∨ m = 6 ∨ m = 9 ∨ m = 11 then 30
  else 31

/-- The calendar day after `d` (model of `date + timedelta(days=1)`). -/
def nextDay (d : Date) : Date :=
  if d.day < daysInMonth d.year d.month then ⟨d.year, d.month, d.day + 1⟩
  else if d.month < 12 then ⟨d.year, d.month + 1, 1⟩
  else ⟨d.year + 1, 1, 1⟩

/-- `d + timedelta(days=n)`. -/
def addDays (d : Date) : ℕ → Date
  | 0 => d
  | n + 1 => nextDay (addDays d n)

/-- Day number of a date counted from the Unix epoch 1970-01-01 (the civil
calendar algorithm); models subtraction of `datetime` values. -/
def toScalar (dt : Date) : ℤ :=
  let y : ℤ := if dt.month ≤ 2 then (dt.year : ℤ) - 1 else (dt.year : ℤ)
  let m : ℤ := dt.month
  let d : ℤ := dt.day
  let era : ℤ := y / 400
  let yoe : ℤ := y - era * 400
  let doy : ℤ := (153 * (m + (if 2 < m then -3 else 9)) + 2) / 5 + d - 1
  let doe : ℤ := yoe * 365 + yoe / 4 - yoe / 100 + doy
  era * 146097 + doe - 719468

/-- Day of the week, Monday = 0 (model of `datetime.weekday()`). -/
def weekday (d : Date) : ℕ := ((toScalar d + 3) % 7).toNat

/-- Length of the generated date range: `(end_date - start_date).days + 1`,
clamped to zero when the range is inverted (Python `range` of a
non-positive bound is empty). -/
def numDays (s e : Date) : ℕ := (toScalar e - toScalar s + 1).toNat

/-- `date_range = [start_date + timedelta(days=x) for x in range(...)]`
(lines 210-212 of src/database.py, with the endpoints as parameters). -/
def sampleDates (s e : Date) : List Date :=
  (List.range (numDays s e)).map (addDays s)

/-- Full weekday names, used by `date.strftime('%A')`. -/
def dayNames : List String :=
  ["Monday", "Tuesday", "Wednesday", "Thursday", "Friday", "Saturday", "Sunday"]

/-- Full month names, used by `date.strftime('%B')`. -/
def monthNames : List String :=
  ["January", "February", "March", "April", "May", "June",
   "July", "August", "September", "October", "November", "December"]

/-- `date.strftime('%Y%m%d')`. -/
def fmtYmd8 (d : Date) : List Char :=
  padDigits 4 d.year ++ padDigits 2 d.month ++ padDigits 2 d.day

/-- `date.strftime('%Y-%m-%d')`. -/
def fmtDashed (d : Date) : String :=
  ⟨padDigits 4 d.year ++ '-' :: padDigits 2 d.month ++ '-' :: padDigits 2 d.day⟩

/-- The order identifier `f"ORD{date.strftime('%Y%m%d')}{order_counter}"`
(line 289 of src/database.py). -/
def orderIdString (d : Date) (c : ℕ) : String :=
  ⟨"ORD".data ++ fmtYmd8 d ++ natDigits c⟩

/-- Executable floor of a rational (proved equal to `⌊q⌋` below; the
`Int.floor` instance of `ℚ` does not reduce in the kernel). -/
def qfloor (q : ℚ) : ℤ := Int.fdiv q.num q.den

/-- Python `int(q)`: truncation toward zero. -/
def pyInt (q : ℚ) : ℤ := if 0 ≤ q then qfloor q else -qfloor (-q)

/-- Round a rational to the nearest integer, ties to even
(Python 3 `round` semantics). -/
def roundHalfEven (q : ℚ) : ℤ :=
  let f := qfloor q
  if q - f < 1 / 2 then f
  else if 1 / 2 < q - f then f + 1
  else if f % 2 = 0 then f else f + 1

/-- Python `round(q, 2)`. -/
def round2 (q : ℚ) : ℚ := (roundHalfEven (q * 100) : ℚ) / 100

/-- Row of the `products` catalog (lines 154-165 of src/database.py);
`product_id` is the SQLite autoincrement key, 1-based in insertion order. -/
structure Product where
  product_id : ℕ
  product_name : String
  category : String
  base_price : ℚ
  cost_price : ℚ
  supplier : String
deriving DecidableEq, Inhabited

/-- The static product catalog inserted by `insert_sample_data`. -/
def products : List Product :=
  [⟨1, "Laptop Pro X1", "Electronics", 899.99, 650.00, "TechSuppliers Inc"⟩,
   ⟨2, "Smartphone Alpha 12", "Electronics", 699.99, 500.00, "MobileTech Co"⟩,
   ⟨3, "Tablet Plus", "Electronics", 399.99, 280.00, "TechSuppliers Inc"⟩,
   ⟨4, "27 Gaming Monitor", "Computers", 249.99, 180.00, "DisplayMasters"⟩,
   ⟨5, "Wireless Headphones", "Accessories", 149.99, 85.00, "AudioTech"⟩,
   ⟨6, "Mechanical Keyboard", "Accessories", 79.99, 45.00, "InputDevices Ltd"⟩,
   ⟨7, "Gaming Mouse", "Accessories", 39.99, 22.00, "InputDevices Ltd"⟩,
   ⟨8, "4K Webcam", "Accessories", 89.99, 55.00, "VideoTech Corp"⟩,
   ⟨9, "Laptop Stand", "Accessories", 34.99, 20.00, "ErgoWorks"⟩,
   ⟨10, "USB-C Hub", "Accessories", 39.99, 25.00, "Connectivity Solutions"⟩]

/-- Row of the `regions` catalog (lines 173-179); ids are 1-based. -/
structure Region where
  region_id : ℕ
  region_name : String
  manager : String
  target_sales : ℚ
deriving DecidableEq, Inhabited

/-- The static region catalog inserted by `insert_sample_data`. -/
def regions : List Region :=
  [⟨1, "North America", "Sarah Johnson", 250000⟩,
   ⟨2, "Europe", "Michael Chen", 200000⟩,
   ⟨3, "Asia Pacific", "Priya Sharma", 180000⟩,
   ⟨4, "Latin America", "Carlos Rodriguez", 120000⟩,
   ⟨5, "Middle East", "Ahmed Al-Farsi", 80000⟩]

/-- Row of the `customers` table (lines 186-199). -/
structure Customer where
  customer_id : String
  customer_name : String
  email : String
  region_id : ℕ
  customer_segment : String
  first_purchase_date : String
  total_purchases : ℚ
deriving DecidableEq, Inhabited

/-- Customer `i` of the seeding loop `for i in range(1, 101)`;
`total_purchases` starts at its SQL default 0. -/
def mkCustomer (i : ℕ) : Customer :=
  ⟨"CUST" ++ natStr (10000 + i),
   "Customer " ++ natStr i,
   "customer" ++ natStr i ++ "@example.com",
   i % 5 + 1,
   if i % 4 = 0 then "Premium" else "Standard",
   "2024-" ++ padStr 2 (i % 12 + 1) ++ "-" ++ padStr 2 (i % 28 + 1),
   0⟩

/-- The 100 seeded customers, `CUST10001` .. `CUST10100`. -/
def customers : List Customer := (List.range 100).map (fun k => mkCustomer (k + 1))

/-- `SELECT product_id, base_price, cost_price FROM products`
(lines 218-219): the rows in insertion order. -/
def product_data : List (ℕ × ℚ × ℚ) :=
  products.map (fun p => (p.product_id, p.base_price, p.cost_price))

/-- `SELECT region_id FROM regions` (lines 221-222). -/
def region_ids : List ℕ := regions.map (fun r => r.region_id)

/-- The sales-rep table indexed by `region_id - 1` (lines 254-255). -/
def salesReps : List String :=
  ["Alex Johnson", "Maria Garcia", "David Chen", "Sarah Williams", "James Brown"]

/-- The region price-multiplier dictionary (lines 258-264). -/
def regionMultiplier (region_id : ℕ) : ℚ :=
  if region_id = 1 then 1
  else if region_id = 2 then 1.1
  else if region_id = 3 then 0.95
  else if region_id = 4 then 0.85
  else 1.2

/-- `quantity_options = [1, 1, 1, 2, 2, 3, 1, 1, 2, 1]` (line 270). -/
def quantityOptions : List ℕ := [1, 1, 1, 2, 2, 3, 1, 1, 2, 1]

/-- Payment methods (line 280). -/
def paymentMethods : List String := ["Credit Card", "PayPal", "Bank Transfer", "Cash"]

/-- Shipping statuses (line 284). -/
def shippingOptions : List String := ["Delivered", "Shipped", "Processing", "Pending"]

/-- The seasonal factor of a month (lines 230-235): 1.5 for the holiday
season (November, December), 0.8 for summer (June, July), else 1.0. -/
def seasonalOf (month : ℕ) : ℚ :=
  if month = 11 ∨ month = 12 then 1.5
  else if month = 6 ∨ month = 7 then 0.8
  else 1

/-- The daily transaction count (lines 238-243):
`int(25 * seasonal_factor * daily_factor * uniform(0.8, 1.2))`
clamped by `max(10, min(_, 60))`. -/
def dailyCount (seasonal_factor : ℚ) (iw : Bool) (u : ℚ) : ℕ :=
  let daily_factor : ℚ := if iw then 1.4 else 1
  let base_transactions : ℚ := 25
  max 10 (min (pyInt (base_transactions * seasonal_factor * daily_factor * u)).toNat 60)

/-- One generated sales transaction.  The first 22 fields mirror the tuple
appended at lines 288-311 of src/database.py (in tuple order, rounded where
the source rounds); the `_x` fields keep the exact pre-rounding local
variables of lines 266-277, and `date`/`counter` record the loop context
from which the string fields are produced. -/
structure Txn where
  order_id : String
  customer_id : String
  product_id : ℕ
  region_id : ℕ
  sales_rep : String
  transaction_date : String
  quantity : ℕ
  unit_price : ℚ
  total_sales : ℚ
  cost_price : ℚ
  total_cost : ℚ
  profit : ℚ
  margin_percent : ℚ
  payment_method : String
  shipping_status : String
  day_of_week : String
  month : String
  quarter : String
  year : ℕ
  is_weekend : Bool
  seasonal_factor : ℚ
  notes : String
  unit_price_x : ℚ
  total_sales_x : ℚ
  total_cost_x : ℚ
  profit_x : ℚ
  margin_percent_x : ℚ
  date : Date
  counter : ℕ
deriving DecidableEq, Inhabited

/-- Body of the per-transaction loop (lines 245-311): draws the product,
region, customer, price jitter, quantity, payment method and shipping
status, computes the financial fields, and assembles the row.  `c` is the
value of `order_counter` after its increment at line 246. -/
def mkTxn (g : RandState) (pd : List (ℕ × ℚ × ℚ)) (rids : List ℕ) (date : Date)
    (sf : ℚ) (iw : Bool) (c : ℕ) : Txn × RandState :=
  let rp := randint g 0 pd.length
  let product := pd.getD rp.1 (0, 0, 0)
  let product_id := product.1
  let base_price := product.2.1
  let cost_price := product.2.2
  let rr := choice rp.2 rids
  let region_id := rr.1
  let rc := randint rr.2 1 101
  let customer_id := "CUST" ++ natStr (10000 + rc.1)
  let sales_rep := salesReps.getD (region_id - 1) ""
  let rv := uniformQ rc.2 0.92 1.08
  let price_variation := rv.1
  let unit_price := base_price * regionMultiplier region_id * price_variation
  let rq := choice rv.2 quantityOptions
  let quantity := rq.1
  let total_sales := unit_price * (quantity : ℚ) * sf * (if iw then 1.4 else 1)
  let total_cost := cost_price * (quantity : ℚ)
  let profit := total_sales - total_cost
  let margin_percent := if 0 < total_sales then profit / total_sales * 100 else 0
  let rpm := weightedChoice rq.2 paymentMethods [0.6, 0.2, 0.15, 0.05]
  let rsh := weightedChoice rpm.2 shippingOptions [0.7, 0.2, 0.08, 0.02]
  (⟨orderIdString date c, customer_id, product_id, region_id, sales_rep,
    fmtDashed date, quantity, round2 unit_price, round2 total_sales, cost_price,
    round2 total_cost, round2 profit, round2 margin_percent, rpm.1, rsh.1,
    dayNames.getD (weekday date) "", monthNames.getD (date.month - 1) "",
    "Q" ++ natStr ((date.month - 1) / 3 + 1), date.year, iw, sf,
    "Sample transaction for demo",
    unit_price, total_sales, total_cost, profit, margin_percent, date, c⟩,
   rsh.2)

/-- The `for _ in range(daily_transactions)` loop: generate `n` transactions
for one day, threading the generator state and `order_counter`. -/
def txnLoop (g : RandState) (pd : List (ℕ × ℚ × ℚ)) (rids : List ℕ) (date : Date)
    (sf : ℚ) (iw : Bool) (c : ℕ) : ℕ → List Txn × ℕ × RandState
  | 0 => ([], c, g)
  | n + 1 =>
      let r := mkTxn g pd rids date sf iw (c + 1)
      let rest := txnLoop r.2 pd rids date sf iw (c + 1) n
      (r.1 :: rest.1, rest.2.1, rest.2.2)

/-- One iteration of the `for date in date_range` loop (lines 224-243):
compute the weekend flag, the seasonal factor, and the clamped daily
transaction count, then run the per-transaction loop. -/
def dayTxns (g : RandState) (pd : List (ℕ × ℚ × ℚ)) (rids : List ℕ) (date : Date)
    (c : ℕ) : List Txn × ℕ × RandState :=
  let day_of_week := weekday date
  let iw : Bool := decide (5 ≤ day_of_week)
  let sf := seasonalOf date.month
  let ru := uniformQ g 0.8 1.2
  let n := dailyCount sf iw ru.1
  txnLoop ru.2 pd rids date sf iw c n

/-- The whole date loop: fold `dayTxns` over the date range, accumulating
the transaction list, the order counter and the generator state. -/
def genAll (pd : List (ℕ × ℚ × ℚ)) (rids : List ℕ) :
    RandState → List Date → ℕ → List Txn × ℕ × RandState
  | g, [], c => ([], c, g)
  | g, d :: ds, c =>
      let r := dayTxns g pd rids d c
      let rest := genAll pd rids r.2.2 ds r.2.1
      (r.1 ++ rest.1, rest.2.1, rest.2.2)

/-- The transaction-generation part of `insert_sample_data` (lines 208-311),
with the seed and date-range endpoints as parameters; the source
instantiates them with 42, 2024-01-01 and 2024-06-30.  `order_counter`
starts at 1000 (line 215). -/
def insertSampleData (seed : ℕ) (s e : Date) : List Txn :=
  (genAll product_data region_ids ⟨seed⟩ (sampleDates s e) 1000).1

/-- The `UPDATE customers SET total_purchases = (SELECT COALESCE(SUM(...)))`
statement (lines 329-336): every customer's `total_purchases` becomes the
sum of the stored `total_sales` of the transactions referencing it
(0 when there are none, by `COALESCE`). -/
def updateCustomerTotals (cs : List Customer) (ts : List Txn) : List Customer :=
  cs.map fun cu =>
    { cu with total_purchases :=
        ((ts.filter (fun t => t.customer_id == cu.customer_id)).map
          (fun t => t.total_sales)).sum }

/-- The dataset produced by one full run of the generation pipeline:
the transactions plus the customers with recomputed totals (the product
and region catalogs are static). -/
def generateDataset (seed : ℕ) (s e : Date) : List Txn × List Customer :=
  let ts := insertSampleData seed s e
  (ts, updateCustomerTotals customers ts)

/-- Failure type the specification ascribes to generation.  The generation
path of `insert_sample_data` contains no raise statement and no input
validation, so its `Except`-valued rendering below never produces it. -/
inductive GenFailure where
  | validationError (msg : String)
deriving DecidableEq

/-- `insert_sample_data` viewed through an error channel: the source
raises nothing while generating, so the result is always `ok`. -/
def insertSampleDataChecked (seed : ℕ) (s e : Date) : Except GenFailure (List Txn) :=
  Except.ok (insertSampleData seed s e)

/-- Abstract storage layer behind `run_custom_query`: what `self.connect()`
does (line 383, outside the try block) and what `cursor.execute` +
`fetchall` do (lines 387-396, inside it).  Each can fail with a
`sqlite3.Error` message. -/
structure SqlBackend where
  connectResult : Except String Unit
  executeResult : String → List String → Except String (List String × List (List String))

/-- The result dictionary of `run_custom_query`: success flag, column
names, rows as column-name/value pairs, row count, and the error text
(present only in the failure dictionary). -/
structure QueryResult where
  success : Bool
  columns : List String
  data : List (List (String × String))
  row_count : ℕ
  error : Option String
deriving DecidableEq

/-- `data = [dict(zip(columns, row)) for row in results] if columns and
results else []` (lines 398-402). -/
def zipRows (columns : List String) (results : List (List String)) :
    List (List (String × String)) :=
  if columns ≠ [] ∧ results ≠ [] then results.map (fun row => columns.zip row) else []

/-- `run_custom_query` (lines 381-418): open a connection, then execute the
query inside try/except.  An execution error is converted into the
`success: False` dictionary; an error raised by `self.connect()` happens
before the try block and therefore propagates (the `Except.error` case). -/
def run_custom_query (db : SqlBackend) (query : String) (params : List String) :
    Except String QueryResult :=
  match db.connectResult with
  | Except.error e => Except.error e
  | Except.ok _ =>
      match db.executeResult query params with
      | Except.ok cr =>
          let data := zipRows cr.1 cr.2
          Except.ok ⟨true, cr.1, data, data.length, none⟩
      | Except.error e => Except.ok ⟨false, [], [], 0, some e⟩

/-- Numeric value of a decimal digit string (big-endian), used to show that
decimal rendering is injective. -/
def digitsVal (cs : List Char) : ℕ := cs.foldl (fun a c => a * 10 + digitVal c) 0

/-- Well-formedness of a calendar date as far as string formatting is
concerned: the month and day fit their `strftime` field widths. -/
def DateOK (d : Date) : Prop := d.month ≤ 12 ∧ d.day ≤ 31

/-- 2024-01-01, the start of the hardcoded generation range (a Monday). -/
def jan1 : Date := ⟨2024, 1, 1⟩

/-- 2024-06-30, the end of the hardcoded generation range. -/
def jun30 : Date := ⟨2024, 6, 30⟩

/-- A one-day instantiation of the generator, used as a concrete run. -/
def oneDayRun : List Txn := insertSampleData 42 jan1 jan1

/-- A storage layer whose connection opening fails (for instance, the
database file cannot be opened). -/
def failingConnectBackend : SqlBackend :=
  ⟨Except.error "unable to open database file", fun _ _ => Except.ok ([], [])⟩

/-- A storage layer that connects but whose query execution fails. -/
def failingExecBackend : SqlBackend :=
  ⟨Except.ok (), fun _ _ => Except.error "no such table: missing_table"⟩

section RandLemmas

/-- `randBelow` really is below its bound. -/
theorem randBelow_lt (g : RandState) (n : ℕ) (h : 0 < n) : (randBelow g n).1 < n := by
  simpa [randBelow, nextNat] using Nat.mod_lt _ h

/-- `randint g lo hi` lies in `[lo, hi)`. -/
theorem randint_bounds (g : RandState) (lo hi : ℕ) (h : lo < hi) :
    lo ≤ (randint g lo hi).1 ∧ (randint g lo hi).1 < hi := by
  have hb := randBelow_lt g (hi - lo) (by omega)
  refine ⟨by simp [randint], ?_⟩
  simp only [randint]
  omega

/-- The uniform draw lies in the requested interval. -/
theorem uniformQ_bounds (g : RandState) (a b : ℚ) (hab : a ≤ b) :
    a ≤ (uniformQ g a b).1 ∧ (uniformQ g a b).1 ≤ b := by
  have hv : ((randBelow g 1000000).1 : ℚ) ≤ 1000000 := by
    exact_mod_cast le_of_lt (randBelow_lt g 1000000 (by omega))
  have hv0 : (0 : ℚ) ≤ ((randBelow g 1000000).1 : ℚ) := Nat.cast_nonneg _
  have ht0 : (0 : ℚ) ≤ ((randBelow g 1000000).1 : ℚ) / 1000000 :=
    div_nonneg hv0 (by norm_num)
  have ht1 : ((randBelow g 1000000).1 : ℚ) / 1000000 ≤ 1 := by
    rw [div_le_one (by norm_num)]; exact hv
  have hm0 : (0 : ℚ) ≤ ((randBelow g 1000000).1 : ℚ) / 1000000 * (b - a) :=
    mul_nonneg ht0 (by linarith)
  have hm1 : ((randBelow g 1000000).1 : ℚ) / 1000000 * (b - a) ≤ b - a :=
    mul_le_of_le_one_left (by linarith) ht1
  constructor
  · simp only [uniformQ]
    linarith
  · simp only [uniformQ]
    linarith

/-- `getD` at an index inside the list returns an element of the list. -/
theorem getD_mem {α : Type} (l : List α) (i : ℕ) (d : α) (h : i < l.length) :
    l.getD i d ∈ l := by
  rw [List.getD_eq_getElem l d h]
  exact List.getElem_mem h

/-- `choice` returns an element of a nonempty list. -/
theorem choice_mem {α : Type} [Inhabited α] (g : RandState) (xs : List α) (h : xs ≠ []) :
    (choice g xs).1 ∈ xs := by
  have hl : 0 < xs.length := List.length_pos.mpr h
  simp only [choice]
  exact getD_mem xs _ default (randBelow_lt g _ hl)

end RandLemmas

section DigitLemmas

/-- Rendering then reading back a decimal digit is the identity. -/
theorem digitVal_digitChar : ∀ n, n < 10 → digitVal (digitChar n) = n := by decide

/-- Folding the decimal-value accumulator over the digit string of `n`
recovers `n` (shifted by the incoming accumulator). -/
theorem foldl_natDigits (n : ℕ) : ∀ acc : ℕ,
    (natDigits n).foldl (fun a c => a * 10 + digitVal c) acc
      = acc * 10 ^ (natDigits n).length + n := by
  induction n using Nat.strong_induction_on with
  | _ n ih =>
    intro acc
    rw [natDigits]
    split
    · next h =>
      simp [List.foldl, digitVal_digitChar n h]
    · next h =>
      rw [List.foldl_append, ih (n / 10) (Nat.div_lt_self (by omega) (by omega))]
      have hv := digitVal_digitChar (n % 10) (Nat.mod_lt _ (by omega))
      simp only [List.foldl, List.length_append, List.length_cons, List.length_nil, hv]
      have hdm := Nat.div_add_mod n 10
      calc (acc * 10 ^ (natDigits (n / 10)).length + n / 10) * 10 + n % 10
          = acc * (10 ^ (natDigits (n / 10)).length * 10) + (10 * (n / 10) + n % 10) := by
            ring
        _ = acc * 10 ^ ((natDigits (n / 10)).length + (0 + 1)) + n := by
            rw [hdm, pow_succ]

/-- The decimal value of the digit string of `n` is `n`. -/
theorem digitsVal_natDigits (n : ℕ) : digitsVal (natDigits n) = n := by
  simpa [digitsVal] using foldl_natDigits n 0

/-- Decimal rendering of naturals is injective. -/
theorem natDigits_inj {a b : ℕ} (h : natDigits a = natDigits b) : a = b := by
  have ha := digitsVal_natDigits a
  rw [h, digitsVal_natDigits b] at ha
  omega

/-- A number below `10 ^ k` has at most `k` decimal digits (for `k ≥ 1`). -/
theorem natDigits_length_le : ∀ (k n : ℕ), n < 10 ^ k → 1 ≤ k → (natDigits n).length ≤ k := by
  intro k
  induction k with
  | zero => omega
  | succ j ih =>
    intro n hn _
    rw [natDigits]
    split
    · simp
    · next h =>
      have hj : 1 ≤ j := by
        by_contra hj0
        have : j = 0 := by omega
        subst this
        simp at hn
        omega
      have hdiv : n / 10 < 10 ^ j := by
        rw [Nat.div_lt_iff_lt_mul (by omega)]
        calc n < 10 ^ (j + 1) := hn
          _ = 10 ^ j * 10 := by rw [pow_succ]
      have := ih (n / 10) hdiv hj
      simp only [List.length_append, List.length_cons, List.length_nil]
      omega

/-- Zero-padding to width `w` produces exactly `w` characters when the
digits fit. -/
theorem padDigits_length (w n : ℕ) (h : (natDigits n).length ≤ w) :
    (padDigits w n).length = w := by
  simp only [padDigits, List.length_append, List.length_replicate]
  omega

/-- `strftime('%Y%m%d')` has exactly 8 characters for a date whose year is
at most 9999 and whose month and day fit two digits. -/
theorem fmtYmd8_length (d : Date) (hy : d.year ≤ 9999) (hm : d.month ≤ 99) (hd : d.day ≤ 99) :
    (fmtYmd8 d).length = 8 := by
  have h4 : (10 : ℕ) ^ 4 = 10000 := by norm_num
  have h2 : (10 : ℕ) ^ 2 = 100 := by norm_num
  rw [fmtYmd8, List.length_append, List.length_append,
    padDigits_length 4 _ (natDigits_length_le 4 _ (by omega) (by omega)),
    padDigits_length 2 _ (natDigits_length_le 2 _ (by omega) (by omega)),
    padDigits_length 2 _ (natDigits_length_le 2 _ (by omega) (by omega))]

/-- Two equal order identifiers whose date parts have the same length have
equal counters. -/
theorem orderIdString_inj (d1 d2 : Date) (c1 c2 : ℕ)
    (h8 : (fmtYmd8 d1).length = (fmtYmd8 d2).length)
    (h : orderIdString d1 c1 = orderIdString d2 c2) : c1 = c2 := by
  unfold orderIdString at h
  have hdata : "ORD".data ++ fmtYmd8 d1 ++ natDigits c1
      = "ORD".data ++ fmtYmd8 d2 ++ natDigits c2 := congrArg String.data h
  rw [List.append_assoc, List.append_assoc] at hdata
  have h2 := List.append_cancel_left hdata
  exact natDigits_inj (List.append_inj h2 h8).2

end DigitLemmas

section DateLemmas

/-- No month has more than 31 days. -/
theorem daysInMonth_le (y m : ℕ) : daysInMonth y m ≤ 31 := by
  unfold daysInMonth
  split_ifs <;> omega

/-- Stepping one day preserves date well-formedness. -/
theorem dateOK_nextDay {d : Date} (h : DateOK d) : DateOK (nextDay d) := by
  obtain ⟨hm, hd⟩ := h
  have h31 := daysInMonth_le d.year d.month
  unfold nextDay DateOK
  split_ifs <;> constructor <;> simp <;> omega

/-- Adding days preserves date well-formedness. -/
theorem dateOK_addDays {d : Date} (h : DateOK d) (n : ℕ) : DateOK (addDays d n) := by
  induction n with
  | zero => exact h
  | succ k ih => exact dateOK_nextDay ih

/-- Stepping one day increases the year by at most one. -/
theorem year_nextDay (d : Date) : (nextDay d).year ≤ d.year + 1 := by
  unfold nextDay
  split_ifs <;> simp

/-- Adding `n` days increases the year by at most `n`. -/
theorem year_addDays (d : Date) (n : ℕ) : (addDays d n).year ≤ d.year + n := by
  induction n with
  | zero => simp [addDays]
  | succ k ih =>
    have := year_nextDay (addDays d k)
    simp only [addDays]
    omega

end DateLemmas

section RoundingLemmas

/-- The executable floor agrees with `Int.floor`. -/
theorem qfloor_eq (q : ℚ) : qfloor q = ⌊q⌋ := by
  rw [Rat.floor_def]
  exact Int.fdiv_eq_ediv _ (by exact_mod_cast Nat.zero_le q.den)

/-- Round-half-even lands within one half of its argument. -/
theorem roundHalfEven_abs (q : ℚ) : |(roundHalfEven q : ℚ) - q| ≤ 1 / 2 := by
  have h1 : ((⌊q⌋ : ℤ) : ℚ) ≤ q := Int.floor_le q
  have h2 : q < ⌊q⌋ + 1 := Int.lt_floor_add_one q
  simp only [roundHalfEven, qfloor_eq]
  split_ifs <;> rw [abs_le] <;> constructor <;> push_cast <;> linarith

/-- `round(x, 2)` lands within `1/200` of its argument. -/
theorem round2_abs (q : ℚ) : |round2 q - q| ≤ 1 / 200 := by
  have h := roundHalfEven_abs (q * 100)
  unfold round2
  rw [abs_le] at h ⊢
  constructor <;> linarith

end RoundingLemmas

section TxnLemmas

/-- The generated row records the order counter it was built from. -/
theorem mkTxn_counter (g : RandState) (pd : List (ℕ × ℚ × ℚ)) (rids : List ℕ)
    (d : Date) (sf : ℚ) (iw : Bool) (c : ℕ) :
    ((mkTxn g pd rids d sf iw c).1).counter = c := rfl

/-- The generated row records its date. -/
theorem mkTxn_date (g : RandState) (pd : List (ℕ × ℚ × ℚ)) (rids : List ℕ)
    (d : Date) (sf : ℚ) (iw : Bool) (c : ℕ) :
    ((mkTxn g pd rids d sf iw c).1).date = d := rfl

/-- The generated row stores the seasonal factor it was passed. -/
theorem mkTxn_seasonal (g : RandState) (pd : List (ℕ × ℚ × ℚ)) (rids : List ℕ)
    (d : Date) (sf : ℚ) (iw : Bool) (c : ℕ) :
    ((mkTxn g pd rids d sf iw c).1).seasonal_factor = sf := rfl

/-- The generated row stores the weekend flag it was passed. -/
theorem mkTxn_weekend (g : RandState) (pd : List (ℕ × ℚ × ℚ)) (rids : List ℕ)
    (d : Date) (sf : ℚ) (iw : Bool) (c : ℕ) :
    ((mkTxn g pd rids d sf iw c).1).is_weekend = iw := rfl

/-- The order identifier combines the date string and the counter. -/
theorem mkTxn_order_id (g : RandState) (pd : List (ℕ × ℚ × ℚ)) (rids : List ℕ)
    (d : Date) (sf : ℚ) (iw : Bool) (c : ℕ) :
    ((mkTxn g pd rids d sf iw c).1).order_id = orderIdString d c := rfl

/-- The exact financial fields satisfy the defining equations of lines
273-277, and every rounded field is the two-decimal rounding of its exact
counterpart (lines 296-301). -/
theorem mkTxn_financials (g : RandState) (pd : List (ℕ × ℚ × ℚ)) (rids : List ℕ)
    (d : Date) (sf : ℚ) (iw : Bool) (c : ℕ) :
    ((mkTxn g pd rids d sf iw c).1).profit_x
        = ((mkTxn g pd rids d sf iw c).1).total_sales_x
          - ((mkTxn g pd rids d sf iw c).1).total_cost_x ∧
    ((mkTxn g pd rids d sf iw c).1).margin_percent_x
        = (if 0 < ((mkTxn g pd rids d sf iw c).1).total_sales_x then
            ((mkTxn g pd rids d sf iw c).1).profit_x
              / ((mkTxn g pd rids d sf iw c).1).total_sales_x * 100
          else 0) ∧
    ((mkTxn g pd rids d sf iw c).1).unit_price
        = round2 ((mkTxn g pd rids d sf iw c).1).unit_price_x ∧
    ((mkTxn g pd rids d sf iw c).1).total_sales
        = round2 ((mkTxn g pd rids d sf iw c).1).total_sales_x ∧
    ((mkTxn g pd rids d sf iw c).1).total_cost
        = round2 ((mkTxn g pd rids d sf iw c).1).total_cost_x ∧
    ((mkTxn g pd rids d sf iw c).1).profit
        = round2 ((mkTxn g pd rids d sf iw c).1).profit_x ∧
    ((mkTxn g pd rids d sf iw c).1).margin_percent
        = round2 ((mkTxn g pd rids d sf iw c).1).margin_percent_x :=
  ⟨rfl, rfl, rfl, rfl, rfl, rfl, rfl⟩

/-- Every base price and cost price of the catalog is positive. -/
theorem product_data_pos : ∀ x ∈ product_data, (0 : ℚ) < x.2.1 ∧ (0 : ℚ) < x.2.2 := by
  intro x hx
  simp only [product_data, products, List.map_cons, List.map_nil, List.mem_cons,
    List.not_mem_nil, or_false] at hx
  rcases hx with rfl | rfl | rfl | rfl | rfl | rfl | rfl | rfl | rfl | rfl <;>
    constructor <;> norm_num

/-- The region price multiplier is at least 0.85 for every region id. -/
theorem regionMultiplier_ge (r : ℕ) : (0.85 : ℚ) ≤ regionMultiplier r := by
  unfold regionMultiplier
  split_ifs <;> norm_num

/-- The catalog fetched for generation is nonempty. -/
theorem product_data_len : product_data.length = 10 := by
  simp [product_data, products]

/-- The drawn product index is inside the catalog. -/
theorem randint_pd_lt (g : RandState) :
    (randint g 0 product_data.length).1 < product_data.length :=
  (randint_bounds g 0 product_data.length (by rw [product_data_len]; omega)).2

/-- References of a generated transaction: the product is drawn from the
fetched catalog, the region from the fetched region ids, the customer id is
`CUST10001` .. `CUST10100`, and the quantity comes from the weighted list. -/
theorem mkTxn_refs (g : RandState) (d : Date) (sf : ℚ) (iw : Bool) (c : ℕ) :
    ((mkTxn g product_data region_ids d sf iw c).1).product_id
        ∈ product_data.map (fun x => x.1) ∧
    ((mkTxn g product_data region_ids d sf iw c).1).region_id ∈ region_ids ∧
    (∃ i, 1 ≤ i ∧ i ≤ 100 ∧
      ((mkTxn g product_data region_ids d sf iw c).1).customer_id
        = "CUST" ++ natStr (10000 + i)) ∧
    ((mkTxn g product_data region_ids d sf iw c).1).quantity ∈ quantityOptions := by
  have hb : ∀ g' : RandState, 1 ≤ (randint g' 1 101).1 ∧ (randint g' 1 101).1 ≤ 100 := by
    intro g'
    have := randint_bounds g' 1 101 (by omega)
    omega
  refine ⟨?_, ?_, ?_, ?_⟩
  · dsimp only [mkTxn]
    exact List.mem_map_of_mem _ (getD_mem _ _ _ (randint_pd_lt g))
  · dsimp only [mkTxn]
    exact choice_mem _ _ (by simp [region_ids, regions])
  · dsimp only [mkTxn]
    exact ⟨_, (hb _).1, (hb _).2, rfl⟩
  · dsimp only [mkTxn]
    exact choice_mem _ _ (by simp [quantityOptions])

/-- The exact total sales of a generated transaction is strictly positive:
the base price is positive, the region multiplier is at least 0.85, the
price jitter at least 0.92, the quantity at least 1, the seasonal factor at
least 0.8, and the weekend factor at least 1. -/
theorem mkTxn_pos (g : RandState) (d : Date) (sf : ℚ) (iw : Bool) (c : ℕ)
    (hsf : (0.8 : ℚ) ≤ sf) :
    0 < ((mkTxn g product_data region_ids d sf iw c).1).total_sales_x := by
  have hbase : ∀ g' : RandState,
      0 < (product_data.getD (randint g' 0 product_data.length).1 (0, 0, 0)).2.1 := by
    intro g'
    exact (product_data_pos _ (getD_mem _ _ _ (randint_pd_lt g'))).1
  have hmult : ∀ r : ℕ, (0 : ℚ) < regionMultiplier r := fun r =>
    lt_of_lt_of_le (by norm_num) (regionMultiplier_ge r)
  have hjit : ∀ g' : RandState, (0 : ℚ) < (uniformQ g' 0.92 1.08).1 := by
    intro g'
    have := (uniformQ_bounds g' 0.92 1.08 (by norm_num)).1
    linarith
  have hqty : ∀ g' : RandState, (0 : ℚ) < ((choice g' quantityOptions).1 : ℚ) := by
    intro g'
    have hmem := choice_mem g' quantityOptions (by simp [quantityOptions])
    have h1 : ∀ q ∈ quantityOptions, 1 ≤ q := by decide
    exact_mod_cast Nat.lt_of_lt_of_le Nat.zero_lt_one (h1 _ hmem)
  have hsf0 : (0 : ℚ) < sf := lt_of_lt_of_le (by norm_num) hsf
  have hwf : (0 : ℚ) < (if iw then (1.4 : ℚ) else 1) := by split_ifs <;> norm_num
  dsimp only [mkTxn]
  exact mul_pos (mul_pos (mul_pos (mul_pos (mul_pos (hbase _) (hmult _)) (hjit _))
    (hqty _)) hsf0) hwf

/-- The margin branch taken is always the division branch. -/
theorem mkTxn_margin (g : RandState) (d : Date) (sf : ℚ) (iw : Bool) (c : ℕ)
    (hsf : (0.8 : ℚ) ≤ sf) :
    ((mkTxn g product_data region_ids d sf iw c).1).margin_percent_x
      = ((mkTxn g product_data region_ids d sf iw c).1).profit_x
        / ((mkTxn g product_data region_ids d sf iw c).1).total_sales_x * 100 := by
  have hfin := (mkTxn_financials g product_data region_ids d sf iw c).2.1
  rw [hfin, if_pos (mkTxn_pos g d sf iw c hsf)]

end TxnLemmas

section LoopLemmas

/-- The per-day loop produces exactly the requested number of rows. -/
theorem txnLoop_length (pd : List (ℕ × ℚ × ℚ)) (rids : List ℕ) (d : Date)
    (sf : ℚ) (iw : Bool) :
    ∀ (n : ℕ) (g : RandState) (c : ℕ), ((txnLoop g pd rids d sf iw c n).1).length = n := by
  intro n
  induction n with
  | zero => intro g c; rfl
  | succ k ih => intro g c; simp only [txnLoop, List.length_cons, ih]

/-- The order counter advances by exactly the number of generated rows. -/
theorem txnLoop_out_counter (pd : List (ℕ × ℚ × ℚ)) (rids : List ℕ) (d : Date)
    (sf : ℚ) (iw : Bool) :
    ∀ (n : ℕ) (g : RandState) (c : ℕ), (txnLoop g pd rids d sf iw c n).2.1 = c + n := by
  intro n
  induction n with
  | zero => intro g c; rfl
  | succ k ih =>
    intro g c
    simp only [txnLoop, ih]
    omega

/-- Every row of the per-day loop is an `mkTxn` at a counter strictly above
the incoming one and at most the incoming one plus the loop count. -/
theorem txnLoop_mem (pd : List (ℕ × ℚ × ℚ)) (rids : List ℕ) (d : Date)
    (sf : ℚ) (iw : Bool) :
    ∀ (n : ℕ) (g : RandState) (c : ℕ) (t : Txn), t ∈ (txnLoop g pd rids d sf iw c n).1 →
      ∃ g' c', c < c' ∧ c' ≤ c + n ∧ t = (mkTxn g' pd rids d sf iw c').1 := by
  intro n
  induction n with
  | zero => intro g c t ht; simp [txnLoop] at ht
  | succ k ih =>
    intro g c t ht
    simp only [txnLoop, List.mem_cons] at ht
    rcases ht with rfl | ht
    · exact ⟨g, c + 1, by omega, by omega, rfl⟩
    · obtain ⟨g', c', h1, h2, h3⟩ := ih _ (c + 1) t ht
      exact ⟨g', c', by omega, by omega, h3⟩

/-- Counters strictly increase along the per-day loop output. -/
theorem txnLoop_pairwise (pd : List (ℕ × ℚ × ℚ)) (rids : List ℕ) (d : Date)
    (sf : ℚ) (iw : Bool) :
    ∀ (n : ℕ) (g : RandState) (c : ℕ),
      List.Pairwise (fun a b : Txn => a.counter < b.counter)
        (txnLoop g pd rids d sf iw c n).1 := by
  intro n
  induction n with
  | zero => intro g c; simp [txnLoop]
  | succ k ih =>
    intro g c
    simp only [txnLoop]
    refine List.Pairwise.cons ?_ (ih _ _)
    intro b hb
    obtain ⟨g', c', h1, _, h3⟩ := txnLoop_mem pd rids d sf iw k _ (c + 1) b hb
    rw [mkTxn_counter, h3, mkTxn_counter]
    omega

/-- The number of rows a day produces is the clamped daily count applied to
the seasonal factor, the weekend flag, and the day's uniform draw. -/
theorem dayTxns_length (g : RandState) (pd : List (ℕ × ℚ × ℚ)) (rids : List ℕ)
    (d : Date) (c : ℕ) :
    ((dayTxns g pd rids d c).1).length
      = dailyCount (seasonalOf d.month) (decide (5 ≤ weekday d)) ((uniformQ g 0.8 1.2).1) := by
  dsimp only [dayTxns]
  exact txnLoop_length pd rids d _ _ _ _ _

/-- The clamp keeps the daily count between 10 and 60. -/
theorem dailyCount_bounds (sf : ℚ) (iw : Bool) (u : ℚ) :
    10 ≤ dailyCount sf iw u ∧ dailyCount sf iw u ≤ 60 := by
  unfold dailyCount
  refine ⟨Nat.le_max_left _ _, Nat.max_le.mpr ⟨by omega, Nat.min_le_right _ _⟩⟩

/-- The counter after a day equals the counter before plus that day's
row count. -/
theorem dayTxns_out_counter (g : RandState) (pd : List (ℕ × ℚ × ℚ)) (rids : List ℕ)
    (d : Date) (c : ℕ) :
    (dayTxns g pd rids d c).2.1 = c + ((dayTxns g pd rids d c).1).length := by
  dsimp only [dayTxns]
  rw [txnLoop_out_counter, txnLoop_length]

/-- Every row of a day is an `mkTxn` for that day's date, seasonal factor
and weekend flag, with a counter in the day's counter window. -/
theorem dayTxns_mem (pd : List (ℕ × ℚ × ℚ)) (rids : List ℕ) (d : Date)
    (g : RandState) (c : ℕ) (t : Txn) (ht : t ∈ (dayTxns g pd rids d c).1) :
    ∃ g' c', c < c' ∧ c' ≤ (dayTxns g pd rids d c).2.1 ∧
      t = (mkTxn g' pd rids d (seasonalOf d.month) (decide (5 ≤ weekday d)) c').1 := by
  have hout := dayTxns_out_counter g pd rids d c
  have hlen := dayTxns_length g pd rids d c
  dsimp only [dayTxns] at ht ⊢
  obtain ⟨g', c', h1, h2, h3⟩ := txnLoop_mem pd rids d _ _ _ _ _ t ht
  refine ⟨g', c', h1, ?_, h3⟩
  rw [txnLoop_out_counter]
  exact h2

/-- Counters strictly increase along a day's output. -/
theorem dayTxns_pairwise (g : RandState) (pd : List (ℕ × ℚ × ℚ)) (rids : List ℕ)
    (d : Date) (c : ℕ) :
    List.Pairwise (fun a b : Txn => a.counter < b.counter) (dayTxns g pd rids d c).1 := by
  dsimp only [dayTxns]
  exact txnLoop_pairwise pd rids d _ _ _ _ _

/-- Every generated row comes from `mkTxn` applied to some day of the date
range, with that day's seasonal factor and weekend flag. -/
theorem genAll_mem (pd : List (ℕ × ℚ × ℚ)) (rids : List ℕ) :
    ∀ (ds : List Date) (g : RandState) (c : ℕ) (t : Txn), t ∈ (genAll pd rids g ds c).1 →
      ∃ d ∈ ds, ∃ g' c',
        t = (mkTxn g' pd rids d (seasonalOf d.month) (decide (5 ≤ weekday d)) c').1 := by
  intro ds
  induction ds with
  | nil => intro g c t ht; simp [genAll] at ht
  | cons d ds ih =>
    intro g c t ht
    simp only [genAll, List.mem_append] at ht
    rcases ht with ht | ht
    · obtain ⟨g', c', _, _, h3⟩ := dayTxns_mem pd rids d g c t ht
      exact ⟨d, List.mem_cons_self d ds, g', c', h3⟩
    · obtain ⟨d', hd', rest⟩ := ih _ _ t ht
      exact ⟨d', List.mem_cons_of_mem d hd', rest⟩

/-- Counter discipline of the whole run: every row's counter lies strictly
between the incoming counter and the final one, the final counter is at
least the incoming one, and counters strictly increase along the output. -/
theorem genAll_counters (pd : List (ℕ × ℚ × ℚ)) (rids : List ℕ) :
    ∀ (ds : List Date) (g : RandState) (c : ℕ),
      (∀ t ∈ (genAll pd rids g ds c).1,
        c < t.counter ∧ t.counter ≤ (genAll pd rids g ds c).2.1) ∧
      c ≤ (genAll pd rids g ds c).2.1 ∧
      List.Pairwise (fun a b : Txn => a.counter < b.counter) (genAll pd rids g ds c).1 := by
  intro ds
  induction ds with
  | nil =>
    intro g c
    refine ⟨?_, le_refl _, ?_⟩ <;> simp [genAll]
  | cons d ds ih =>
    intro g c
    obtain ⟨ihmem, ihle, ihpw⟩ := ih (dayTxns g pd rids d c).2.2 (dayTxns g pd rids d c).2.1
    have hdayout := dayTxns_out_counter g pd rids d c
    have hdaymem : ∀ t ∈ (dayTxns g pd rids d c).1,
        c < t.counter ∧ t.counter ≤ (dayTxns g pd rids d c).2.1 := by
      intro t ht
      obtain ⟨g', c', h1, h2, h3⟩ := dayTxns_mem pd rids d g c t ht
      rw [h3, mkTxn_counter]
      exact ⟨h1, h2⟩
    refine ⟨?_, ?_, ?_⟩
    · intro t ht
      simp only [genAll, List.mem_append] at ht
      simp only [genAll]
      rcases ht with ht | ht
      · have h := hdaymem t ht
        have := ihle
        exact ⟨h.1, le_trans h.2 this⟩
      · have h := ihmem t ht
        refine ⟨?_, h.2⟩
        have := h.1
        omega
    · simp only [genAll]
      omega
    · simp only [genAll]
      rw [List.pairwise_append]
      refine ⟨dayTxns_pairwise g pd rids d c, ihpw, ?_⟩
      intro a ha b hb
      have h1 := (hdaymem a ha).2
      have h2 := (ihmem b hb).1
      omega

/-- Prepending a day only lengthens the run. -/
theorem genAll_cons_length_ge (pd : List (ℕ × ℚ × ℚ)) (rids : List ℕ) (d : Date)
    (ds : List Date) (g : RandState) (c : ℕ) :
    ((dayTxns g pd rids d c).1).length ≤ ((genAll pd rids g (d :: ds) c).1).length := by
  simp only [genAll, List.length_append]
  omega

/-- Every transaction of a parameterized run comes from `mkTxn` on some day
of the range. -/
theorem insertSampleData_mem (seed : ℕ) (s e : Date) (t : Txn)
    (ht : t ∈ insertSampleData seed s e) :
    ∃ d ∈ sampleDates s e, ∃ g' c',
      t = (mkTxn g' product_data region_ids d (seasonalOf d.month)
            (decide (5 ≤ weekday d)) c').1 :=
  genAll_mem product_data region_ids (sampleDates s e) ⟨seed⟩ 1000 t ht

/-- A run over a nonempty date range contains at least ten transactions. -/
theorem insertSampleData_length_pos (seed : ℕ) (s e : Date) (h : 0 < numDays s e) :
    0 < (insertSampleData seed s e).length := by
  have hlen : (sampleDates s e).length = numDays s e := by simp [sampleDates]
  cases hsd : sampleDates s e with
  | nil => rw [hsd] at hlen; simp at hlen; omega
  | cons d ds =>
    unfold insertSampleData
    rw [hsd]
    have h10 : 10 ≤ ((dayTxns ⟨seed⟩ product_data region_ids d 1000).1).length := by
      rw [dayTxns_length]
      exact (dailyCount_bounds _ _ _).1
    have hge := genAll_cons_length_ge product_data region_ids d ds ⟨seed⟩ 1000
    omega

end LoopLemmas

section Claims

/-- C1: running the generation twice with the same fixed seed, date range,
and catalog produces identical transaction sets — the same number of
transactions, in the same order, with identical values in every field.  In
this embedding all randomness of `np.random` is an explicit state seeded at
the start, so the whole pipeline is a pure function of seed and range. -/
theorem C1_generation_deterministic (s1 s2 : ℕ) (a1 a2 b1 b2 : Date)
    (hs : s1 = s2) (ha : a1 = a2) (hb : b1 = b2) :
    generateDataset s1 a1 b1 = generateDataset s2 a2 b2 ∧
    insertSampleData s1 a1 b1 = insertSampleData s2 a2 b2 ∧
    (insertSampleData s1 a1 b1).length = (insertSampleData s2 a2 b2).length := by
  subst hs
  subst ha
  subst hb
  exact ⟨rfl, rfl, rfl⟩

/-- Witness for C1 at the hardcoded seed and range. -/
theorem C1_witness :
    generateDataset 42 jan1 jun30 = generateDataset 42 jan1 jun30 ∧
    insertSampleData 42 jan1 jun30 = insertSampleData 42 jan1 jun30 ∧
    (insertSampleData 42 jan1 jun30).length = (insertSampleData 42 jan1 jun30).length :=
  C1_generation_deterministic 42 42 jan1 jan1 jun30 jun30 rfl rfl rfl

/-- C3 counterexample: on an inverted date range (end before start) the
generator does NOT fail with a ValidationError — it returns normally
(`Except.ok`) with an empty transaction list, because the source performs
no input validation and Python `range` of a non-positive bound is empty. -/
theorem C3_counterexample :
    insertSampleDataChecked 42 jun30 jan1 = Except.ok [] ∧
    sampleDates jun30 jan1 = [] := by
  exact ⟨rfl, rfl⟩

/-- C3 amended: for every inverted date range, generation raises no error
and produces no data; the catalog, region list and customer pool are
hardcoded and non-empty, so no other validation condition can arise. -/
theorem C3_amended (seed : ℕ) (s e : Date) (h : toScalar e < toScalar s) :
    insertSampleDataChecked seed s e = Except.ok [] ∧
    insertSampleData seed s e = [] ∧ sampleDates s e = [] := by
  have h0 : numDays s e = 0 := by
    unfold numDays
    omega
  have hsd : sampleDates s e = [] := by
    unfold sampleDates
    rw [h0]
    rfl
  refine ⟨?_, ?_, hsd⟩
  · unfold insertSampleDataChecked insertSampleData
    rw [hsd]
    rfl
  · unfold insertSampleData
    rw [hsd]
    rfl

/-- Witness for C3 amended at a concrete inverted range. -/
theorem C3_amended_witness :
    insertSampleDataChecked 42 jun30 jan1 = Except.ok [] ∧
    insertSampleData 42 jun30 jan1 = [] ∧ sampleDates jun30 jan1 = [] :=
  C3_amended 42 jun30 jan1 (by decide)

/-- C6: for every calendar day, the number of transactions generated that
day equals the integer truncation of 25 times the day's seasonal factor
times the weekend factor (1.4 on weekends, else 1.0) times a uniform draw
in [0.8, 1.2], clamped to [10, 60]; in particular it lies in [10, 60]. -/
theorem C6_daily_transaction_count (g : RandState) (d : Date) (c : ℕ) :
    ∃ u : ℚ, 0.8 ≤ u ∧ u ≤ 1.2 ∧
      ((dayTxns g product_data region_ids d c).1).length
        = dailyCount (seasonalOf d.month) (decide (5 ≤ weekday d)) u ∧
      dailyCount (seasonalOf d.month) (decide (5 ≤ weekday d)) u
        = max 10 (min (pyInt (25 * seasonalOf d.month
            * (if decide (5 ≤ weekday d) then 1.4 else 1) * u)).toNat 60) ∧
      10 ≤ ((dayTxns g product_data region_ids d c).1).length ∧
      ((dayTxns g product_data region_ids d c).1).length ≤ 60 := by
  refine ⟨(uniformQ g 0.8 1.2).1, (uniformQ_bounds g 0.8 1.2 (by norm_num)).1,
    (uniformQ_bounds g 0.8 1.2 (by norm_num)).2, dayTxns_length g _ _ d c, rfl, ?_, ?_⟩
  · rw [dayTxns_length]
    exact (dailyCount_bounds _ _ _).1
  · rw [dayTxns_length]
    exact (dailyCount_bounds _ _ _).2

/-- C9 counterexample: an error raised while opening the connection — which
happens at line 383, before the try block — propagates out of
`run_custom_query` instead of being converted into a `success: False`
result. -/
theorem C9_counterexample :
    run_custom_query failingConnectBackend "SELECT 1" []
      = Except.error "unable to open database file" := rfl

/-- C9 amended: once the connection is open, `run_custom_query` never
propagates a storage error: a successful execution yields the
`success: True` result with the columns and rows, and a failing execution
yields the `success: False` result carrying the error text with empty
columns and rows. -/
theorem C9_amended (db : SqlBackend) (query : String) (params : List String)
    (hc : db.connectResult = Except.ok ()) :
    (∀ cols rows, db.executeResult query params = Except.ok (cols, rows) →
      run_custom_query db query params
        = Except.ok ⟨true, cols, zipRows cols rows, (zipRows cols rows).length, none⟩) ∧
    (∀ msg, db.executeResult query params = Except.error msg →
      run_custom_query db query params = Except.ok ⟨false, [], [], 0, some msg⟩) := by
  constructor
  · intro cols rows hex
    unfold run_custom_query
    rw [hc, hex]
  · intro msg hex
    unfold run_custom_query
    rw [hc, hex]

/-- Witness for C9 amended: a backend whose execution fails is converted
into the uniform failure dictionary. -/
theorem C9_witness :
    run_custom_query failingExecBackend "SELECT name FROM missing_table" []
      = Except.ok ⟨false, [], [], 0, some "no such table: missing_table"⟩ :=
  (C9_amended failingExecBackend "SELECT name FROM missing_table" [] rfl).2
    "no such table: missing_table" rfl

/-- The seasonal factor is always at least 0.8. -/
theorem seasonalOf_ge (m : ℕ) : (0.8 : ℚ) ≤ seasonalOf m := by
  unfold seasonalOf
  split_ifs <;> norm_num

/-- The first transaction of the one-day run, used as a concrete witness
element. -/
theorem oneDayRun_getD_mem : oneDayRun.getD 0 default ∈ insertSampleData 42 jan1 jan1 :=
  getD_mem (insertSampleData 42 jan1 jan1) 0 default
    (insertSampleData_length_pos 42 jan1 jan1 (by decide))

/-- C2: for every generated transaction, the exact (pre-rounding) financial
fields satisfy profit = total_sales − total_cost and
margin_percent = profit / total_sales · 100 (0 whenever total_sales = 0),
and each stored rounded field is within 1/200 of its exact counterpart, so
the stored fields satisfy the equations within floating-point tolerance. -/
theorem C2_financial_consistency (seed : ℕ) (s e : Date) (t : Txn)
    (ht : t ∈ insertSampleData seed s e) :
    t.profit_x = t.total_sales_x - t.total_cost_x ∧
    (t.total_sales_x ≠ 0 → t.margin_percent_x = t.profit_x / t.total_sales_x * 100) ∧
    (t.total_sales_x = 0 → t.margin_percent_x = 0) ∧
    |t.total_sales - t.total_sales_x| ≤ 1 / 200 ∧
    |t.total_cost - t.total_cost_x| ≤ 1 / 200 ∧
    |t.profit - t.profit_x| ≤ 1 / 200 ∧
    |t.margin_percent - t.margin_percent_x| ≤ 1 / 200 := by
  obtain ⟨d, hd, g', c', rfl⟩ := insertSampleData_mem seed s e t ht
  have hsf := seasonalOf_ge d.month
  have hfin := mkTxn_financials g' product_data region_ids d (seasonalOf d.month)
    (decide (5 ≤ weekday d)) c'
  have hpos := mkTxn_pos g' d (seasonalOf d.month) (decide (5 ≤ weekday d)) c' hsf
  refine ⟨hfin.1, ?_, ?_, ?_, ?_, ?_, ?_⟩
  · intro _
    exact mkTxn_margin g' d (seasonalOf d.month) (decide (5 ≤ weekday d)) c' hsf
  · intro h0
    rw [h0] at hpos
    exact absurd hpos (lt_irrefl 0)
  · rw [hfin.2.2.2.1]
    exact round2_abs _
  · rw [hfin.2.2.2.2.1]
    exact round2_abs _
  · rw [hfin.2.2.2.2.2.1]
    exact round2_abs _
  · rw [hfin.2.2.2.2.2.2]
    exact round2_abs _

/-- Witness for C2 at the first transaction of a concrete one-day run. -/
theorem C2_witness :
    (oneDayRun.getD 0 default).profit_x
        = (oneDayRun.getD 0 default).total_sales_x
          - (oneDayRun.getD 0 default).total_cost_x ∧
    ((oneDayRun.getD 0 default).total_sales_x ≠ 0 →
      (oneDayRun.getD 0 default).margin_percent_x
        = (oneDayRun.getD 0 default).profit_x
          / (oneDayRun.getD 0 default).total_sales_x * 100) ∧
    ((oneDayRun.getD 0 default).total_sales_x = 0 →
      (oneDayRun.getD 0 default).margin_percent_x = 0) ∧
    |(oneDayRun.getD 0 default).total_sales
      - (oneDayRun.getD 0 default).total_sales_x| ≤ 1 / 200 ∧
    |(oneDayRun.getD 0 default).total_cost
      - (oneDayRun.getD 0 default).total_cost_x| ≤ 1 / 200 ∧
    |(oneDayRun.getD 0 default).profit
      - (oneDayRun.getD 0 default).profit_x| ≤ 1 / 200 ∧
    |(oneDayRun.getD 0 default).margin_percent
      - (oneDayRun.getD 0 default).margin_percent_x| ≤ 1 / 200 :=
  C2_financial_consistency 42 jan1 jan1 (oneDayRun.getD 0 default) oneDayRun_getD_mem

/-- C4: every generated transaction's product, region, and customer
reference denotes an entity of the generated catalogs. -/
theorem C4_referential_integrity (seed : ℕ) (s e : Date) (t : Txn)
    (ht : t ∈ insertSampleData seed s e) :
    t.product_id ∈ products.map Product.product_id ∧
    t.region_id ∈ regions.map Region.region_id ∧
    t.customer_id ∈ customers.map Customer.customer_id := by
  obtain ⟨d, hd, g', c', rfl⟩ := insertSampleData_mem seed s e t ht
  have href := mkTxn_refs g' d (seasonalOf d.month) (decide (5 ≤ weekday d)) c'
  refine ⟨?_, ?_, ?_⟩
  · have hmap : product_data.map (fun x => x.1) = products.map Product.product_id := by
      simp [product_data, products]
    rw [← hmap]
    exact href.1
  · exact href.2.1
  · obtain ⟨i, h1, h2, heq⟩ := href.2.2.1
    rw [heq]
    apply List.mem_map.mpr
    refine ⟨mkCustomer i, ?_, rfl⟩
    apply List.mem_map.mpr
    refine ⟨i - 1, List.mem_range.mpr (by omega), ?_⟩
    have : i - 1 + 1 = i := by omega
    rw [this]

/-- Witness for C4 at the first transaction of a concrete one-day run. -/
theorem C4_witness :
    (oneDayRun.getD 0 default).product_id ∈ products.map Product.product_id ∧
    (oneDayRun.getD 0 default).region_id ∈ regions.map Region.region_id ∧
    (oneDayRun.getD 0 default).customer_id ∈ customers.map Customer.customer_id :=
  C4_referential_integrity 42 jan1 jan1 (oneDayRun.getD 0 default) oneDayRun_getD_mem

/-- C8: every generated transaction's seasonal factor is the seasonal
factor of its month — 1.5 for months 11 and 12, 0.8 for months 6 and 7,
else 1.0 — and in particular every transaction generated for 2024-12-25
has seasonal factor 1.5. -/
theorem C8_seasonal_factor (seed : ℕ) (s e : Date) (t : Txn)
    (ht : t ∈ insertSampleData seed s e) :
    t.seasonal_factor = seasonalOf t.date.month ∧
    ((t.date.month = 11 ∨ t.date.month = 12) → t.seasonal_factor = 1.5) ∧
    ((t.date.month = 6 ∨ t.date.month = 7) → t.seasonal_factor = 0.8) ∧
    ((t.date.month ≠ 11 ∧ t.date.month ≠ 12 ∧ t.date.month ≠ 6 ∧ t.date.month ≠ 7) →
      t.seasonal_factor = 1) ∧
    (t.date = ⟨2024, 12, 25⟩ → t.seasonal_factor = 1.5) := by
  obtain ⟨d, hd, g', c', rfl⟩ := insertSampleData_mem seed s e t ht
  rw [mkTxn_seasonal, mkTxn_date]
  refine ⟨rfl, ?_, ?_, ?_, ?_⟩
  · intro h
    unfold seasonalOf
    split_ifs <;> first | rfl | (exfalso; omega)
  · intro h
    unfold seasonalOf
    split_ifs <;> first | rfl | (exfalso; omega)
  · intro h
    unfold seasonalOf
    split_ifs <;> first | rfl | (exfalso; omega)
  · intro h
    rw [h]
    rfl

/-- Witness for C8 at the first transaction of a concrete one-day run. -/
theorem C8_witness :
    (oneDayRun.getD 0 default).seasonal_factor
        = seasonalOf (oneDayRun.getD 0 default).date.month ∧
    (((oneDayRun.getD 0 default).date.month = 11 ∨
        (oneDayRun.getD 0 default).date.month = 12) →
      (oneDayRun.getD 0 default).seasonal_factor = 1.5) ∧
    (((oneDayRun.getD 0 default).date.month = 6 ∨
        (oneDayRun.getD 0 default).date.month = 7) →
      (oneDayRun.getD 0 default).seasonal_factor = 0.8) ∧
    (((oneDayRun.getD 0 default).date.month ≠ 11 ∧
        (oneDayRun.getD 0 default).date.month ≠ 12 ∧
        (oneDayRun.getD 0 default).date.month ≠ 6 ∧
        (oneDayRun.getD 0 default).date.month ≠ 7) →
      (oneDayRun.getD 0 default).seasonal_factor = 1) ∧
    ((oneDayRun.getD 0 default).date = ⟨2024, 12, 25⟩ →
      (oneDayRun.getD 0 default).seasonal_factor = 1.5) :=
  C8_seasonal_factor 42 jan1 jan1 (oneDayRun.getD 0 default) oneDayRun_getD_mem

/-- C10: for every generated transaction the exact total sales is strictly
positive — the quantity is at least 1, the price jitter at least 0.92,
every region multiplier at least 0.85, the seasonal factor at least 0.8,
and every catalog base price positive — so the fallback branch assigning
margin_percent = 0 is never taken and the division branch applies. -/
theorem C10_total_sales_positive (seed : ℕ) (s e : Date) (t : Txn)
    (ht : t ∈ insertSampleData seed s e) :
    0 < t.total_sales_x ∧
    t.margin_percent_x = t.profit_x / t.total_sales_x * 100 ∧
    1 ≤ t.quantity ∧
    (0.8 : ℚ) ≤ t.seasonal_factor ∧
    (∀ g' : RandState, (0.92 : ℚ) ≤ (uniformQ g' 0.92 1.08).1) ∧
    (∀ r : ℕ, (0.85 : ℚ) ≤ regionMultiplier r) ∧
    (∀ x ∈ product_data, (0 : ℚ) < x.2.1) := by
  obtain ⟨d, hd, g', c', rfl⟩ := insertSampleData_mem seed s e t ht
  have hsf := seasonalOf_ge d.month
  have href := mkTxn_refs g' d (seasonalOf d.month) (decide (5 ≤ weekday d)) c'
  have h1 : ∀ q ∈ quantityOptions, 1 ≤ q := by decide
  refine ⟨mkTxn_pos g' d (seasonalOf d.month) (decide (5 ≤ weekday d)) c' hsf,
    mkTxn_margin g' d (seasonalOf d.month) (decide (5 ≤ weekday d)) c' hsf,
    h1 _ href.2.2.2, ?_, ?_, regionMultiplier_ge,
    fun x hx => (product_data_pos x hx).1⟩
  · rw [mkTxn_seasonal]
    exact hsf
  · intro g''
    exact (uniformQ_bounds g'' 0.92 1.08 (by norm_num)).1

/-- Witness for C10 at the first transaction of a concrete one-day run. -/
theorem C10_witness :
    0 < (oneDayRun.getD 0 default).total_sales_x ∧
    (oneDayRun.getD 0 default).margin_percent_x
        = (oneDayRun.getD 0 default).profit_x
          / (oneDayRun.getD 0 default).total_sales_x * 100 ∧
    1 ≤ (oneDayRun.getD 0 default).quantity ∧
    (0.8 : ℚ) ≤ (oneDayRun.getD 0 default).seasonal_factor ∧
    (∀ g' : RandState, (0.92 : ℚ) ≤ (uniformQ g' 0.92 1.08).1) ∧
    (∀ r : ℕ, (0.85 : ℚ) ≤ regionMultiplier r) ∧
    (∀ x ∈ product_data, (0 : ℚ) < x.2.1) :=
  C10_total_sales_positive 42 jan1 jan1 (oneDayRun.getD 0 default) oneDayRun_getD_mem

/-- C5: after the update, every customer's `total_purchases` equals the sum
of the stored `total_sales` over the transactions referencing that
customer id, and a customer with no transactions gets 0. -/
theorem C5_customer_totals (ts : List Txn) (cu : Customer)
    (hcu : cu ∈ updateCustomerTotals customers ts) :
    cu.total_purchases
      = ((ts.filter (fun t => t.customer_id == cu.customer_id)).map
          (fun t => t.total_sales)).sum ∧
    (ts.filter (fun t => t.customer_id == cu.customer_id) = [] →
      cu.total_purchases = 0) := by
  obtain ⟨c0, hc0, rfl⟩ := List.mem_map.mp hcu
  constructor
  · rfl
  · intro h
    have h' : ts.filter (fun t => t.customer_id == c0.customer_id) = [] := h
    show ((ts.filter (fun t => t.customer_id == c0.customer_id)).map
      (fun t => t.total_sales)).sum = 0
    rw [h']
    rfl

/-- Witness for C5 at the first updated customer of a concrete run. -/
theorem C5_witness :
    ((updateCustomerTotals customers oneDayRun).getD 0 default).total_purchases
      = ((oneDayRun.filter (fun t => t.customer_id
            == ((updateCustomerTotals customers oneDayRun).getD 0 default).customer_id)).map
          (fun t => t.total_sales)).sum ∧
    (oneDayRun.filter (fun t => t.customer_id
        == ((updateCustomerTotals customers oneDayRun).getD 0 default).customer_id) = [] →
      ((updateCustomerTotals customers oneDayRun).getD 0 default).total_purchases = 0) :=
  C5_customer_totals oneDayRun
    ((updateCustomerTotals customers oneDayRun).getD 0 default)
    (getD_mem _ 0 default (by
      simp only [updateCustomerTotals, customers, List.length_map, List.length_range]
      omega))

/-- C7: all order identifiers are distinct across the full generated set;
each one combines the transaction's date string with a counter that
increases strictly monotonically across the whole run.  The side
conditions say the start date is a well-formed calendar date and the run
stays below year 10000, which the hardcoded 2024 run satisfies. -/
theorem C7_order_ids_unique (seed : ℕ) (s e : Date)
    (hm : s.month ≤ 12) (hd : s.day ≤ 31) (hy : s.year + numDays s e ≤ 9999) :
    (∀ t ∈ insertSampleData seed s e, t.order_id = orderIdString t.date t.counter) ∧
    List.Pairwise (fun a b : Txn => a.counter < b.counter) (insertSampleData seed s e) ∧
    ((insertSampleData seed s e).map (fun t => t.order_id)).Nodup := by
  have hfacts : ∀ t ∈ insertSampleData seed s e,
      t.order_id = orderIdString t.date t.counter ∧ (fmtYmd8 t.date).length = 8 := by
    intro t ht
    obtain ⟨d, hdmem, g', c', rfl⟩ := insertSampleData_mem seed s e t ht
    obtain ⟨i, hi, rfl⟩ : ∃ i, i < numDays s e ∧ d = addDays s i := by
      simp only [sampleDates, List.mem_map, List.mem_range] at hdmem
      obtain ⟨i, hi, hieq⟩ := hdmem
      exact ⟨i, hi, hieq.symm⟩
    obtain ⟨hm', hd'⟩ := dateOK_addDays (⟨hm, hd⟩ : DateOK s) i
    have hy' := year_addDays s i
    rw [mkTxn_order_id, mkTxn_date, mkTxn_counter]
    exact ⟨rfl, fmtYmd8_length _ (by omega) (by omega) (by omega)⟩
  have hpw := (genAll_counters product_data region_ids (sampleDates s e) ⟨seed⟩ 1000).2.2
  refine ⟨fun t ht => (hfacts t ht).1, hpw, ?_⟩
  have hne : List.Pairwise (fun a b : Txn => a.order_id ≠ b.order_id)
      (insertSampleData seed s e) := by
    refine hpw.imp_of_mem ?_
    intro a b ha hb hab heq
    have h8 := ((hfacts a ha).2).trans ((hfacts b hb).2).symm
    rw [(hfacts a ha).1, (hfacts b hb).1] at heq
    have := orderIdString_inj a.date b.date a.counter b.counter h8 heq
    omega
  exact List.pairwise_map.mpr hne

/-- Witness for C7 on a concrete one-day run. -/
theorem C7_witness :
    (∀ t ∈ insertSampleData 42 jan1 jan1, t.order_id = orderIdString t.date t.counter) ∧
    List.Pairwise (fun a b : Txn => a.counter < b.counter) (insertSampleData 42 jan1 jan1) ∧
    ((insertSampleData 42 jan1 jan1).map (fun t => t.order_id)).Nodup :=
  C7_order_ids_unique 42 jan1 jan1 (by decide) (by decide) (by decide)

end Claims

end SalesDB
